import Mathlib

/-!
Shallow embedding of `app/lib/data.ts` (the data-access layer of the
dashboard application) and proofs of its specified properties.

The database is modelled as lists of rows; each exported operation of the
source file becomes a Lean function from an environment (the `SKIP_DB`
toggle plus the outcome of executing a query: success with a database
snapshot, or a query-execution failure) to its result paired with the list
of diagnostic labels written to the logging sink (`console.error` context
labels in the source).  SQL `ILIKE '%q%'` is modelled as case-insensitive
substring containment (wildcard metacharacters inside `q` are not
modelled); `ORDER BY` is modelled as a deterministic insertion sort on the
ordering key; `LIMIT`/`OFFSET` as `take`/`drop`; `JOIN` as a flattened
product on the join condition.
-/

namespace DataTs

/-- A row of the `invoices` table.  `amount` is stored in integer cents. -/
structure Invoice where
  id : String
  customer_id : String
  amount : Int
  date : String
  status : String
deriving Repr, DecidableEq

/-- A row of the `customers` table. -/
structure Customer where
  id : String
  name : String
  email : String
  image_url : String
deriving Repr, DecidableEq

/-- A row of the `revenue` table. -/
structure Revenue where
  month : String
  revenue : Int
deriving Repr, DecidableEq

/-- A database snapshot: the three tables the layer reads. -/
structure Db where
  invoices : List Invoice
  customers : List Customer
  revenue : List Revenue
deriving Repr, DecidableEq

/-- The execution environment of one call: the `SKIP_DB` toggle
(`process.env.SKIP_DB === 'true'`), and the outcome of executing a query
against the connection: `some db` when the query succeeds against snapshot
`db`, `none` when query execution throws. -/
structure Env where
  skipDb : Bool
  queryOutcome : Option Db
deriving Repr, DecidableEq

/-- Result of `fetchLatestInvoices` (projection of the source `SELECT`). -/
structure LatestInvoiceRaw where
  amount : Int
  name : String
  image_url : String
  email : String
  id : String
deriving Repr, DecidableEq

/-- The dashboard-card aggregate returned by `fetchCardData`. -/
structure CardData where
  numberOfInvoices : Nat
  numberOfCustomers : Nat
  totalPaidInvoices : Int
  totalPendingInvoices : Int
deriving Repr, DecidableEq

/-- A row of the filtered-invoices table (`fetchFilteredInvoices`). -/
structure InvoicesTable where
  id : String
  amount : Int
  date : String
  status : String
  name : String
  email : String
  image_url : String
deriving Repr, DecidableEq

/-- The single-invoice form record (`fetchInvoiceById`); its `amount` is
the cents value divided by 100, hence a rational. -/
structure InvoiceForm where
  id : String
  customer_id : String
  amount : ℚ
  status : String
deriving Repr, DecidableEq

/-- Result row of `fetchCustomers`. -/
structure CustomerField where
  id : String
  name : String
deriving Repr, DecidableEq

/-- A raw result row of the `fetchFilteredCustomers` SQL statement, before
the JavaScript `Number(x ?? 0)` coercion step: the two `COALESCE`d sums
come off the wire as possibly-absent numeric values. -/
structure CustomersTableRaw where
  id : String
  name : String
  email : String
  image_url : String
  total_invoices : Nat
  total_pending : Option Int
  total_paid : Option Int
deriving Repr, DecidableEq

/-- A row of the customers table result after the coercion map
(`fetchFilteredCustomers` return type). -/
structure CustomersTableType where
  id : String
  name : String
  email : String
  image_url : String
  total_invoices : Nat
  total_pending : Int
  total_paid : Int
deriving Repr, DecidableEq

/-- `leadMatch n h` : the character list `n` is an initial segment of `h`. -/
def leadMatch : List Char → List Char → Bool
  | [], _ => true
  | _ :: _, [] => false
  | a :: as, b :: bs => a == b && leadMatch as bs

/-- `containsSub n h` : the character list `n` occurs contiguously in `h`. -/
def containsSub (n : List Char) : List Char → Bool
  | [] => n.isEmpty
  | b :: bs => leadMatch n (b :: bs) || containsSub n bs

/-- Case-insensitive character list of a string. -/
def lowerChars (s : String) : List Char :=
  s.toList.map Char.toLower

/-- Model of the SQL predicate `s ILIKE '%q%'`: case-insensitive substring
containment of `q` in `s`. -/
def ilike (s q : String) : Bool :=
  containsSub (lowerChars q) (lowerChars s)

/-- `FROM invoices JOIN customers ON invoices.customer_id = customers.id`:
each invoice paired with every customer whose `id` matches its
`customer_id`. -/
def joinedPairs (db : Db) : List (Invoice × Customer) :=
  (db.invoices.map fun inv =>
    (db.customers.filter fun c => c.id == inv.customer_id).map fun c => (inv, c)).flatten

/-- Projection of a joined pair onto the `fetchFilteredInvoices` row shape. -/
def toInvoicesTable (p : Invoice × Customer) : InvoicesTable :=
  { id := p.1.id, amount := p.1.amount, date := p.1.date, status := p.1.status,
    name := p.2.name, email := p.2.email, image_url := p.2.image_url }

/-- The joined invoice/customer rows as they appear in the invoices table. -/
def invoiceRows (db : Db) : List InvoicesTable :=
  (joinedPairs db).map toInvoicesTable

/-- The `WHERE` clause shared by `fetchFilteredInvoices` and
`fetchInvoicesPages`: case-insensitive substring match of the query against
customer name, customer email, amount cast to text, date cast to text, or
status. -/
def matchesInvoice (query : String) (r : InvoicesTable) : Bool :=
  ilike r.name query || ilike r.email query || ilike (toString r.amount) query ||
    ilike r.date query || ilike r.status query

/-- `ORDER BY invoices.date DESC` on table rows. -/
def dateDesc (a b : InvoicesTable) : Prop := b.date ≤ a.date

instance : DecidableRel dateDesc :=
  fun a b => inferInstanceAs (Decidable (b.date ≤ a.date))

instance : IsTotal InvoicesTable dateDesc :=
  ⟨fun a b => le_total b.date a.date⟩

instance : IsTrans InvoicesTable dateDesc :=
  ⟨fun _ _ _ hab hbc => le_trans hbc hab⟩

/-- `ORDER BY invoices.date DESC` on joined pairs. -/
def pairDateDesc (a b : Invoice × Customer) : Prop := b.1.date ≤ a.1.date

instance : DecidableRel pairDateDesc :=
  fun a b => inferInstanceAs (Decidable (b.1.date ≤ a.1.date))

/-- `ORDER BY customers.name ASC`. -/
def nameAsc (a b : Customer) : Prop := a.name ≤ b.name

instance : DecidableRel nameAsc :=
  fun a b => inferInstanceAs (Decidable (a.name ≤ b.name))

/-- `const ITEMS_PER_PAGE = 6`. -/
def ITEMS_PER_PAGE : Nat := 6

/-- Filtered and date-descending-sorted invoice rows: the result set of the
`fetchFilteredInvoices` statement before `LIMIT`/`OFFSET`. -/
def sortedFilteredInvoices (query : String) (db : Db) : List InvoicesTable :=
  List.insertionSort dateDesc ((invoiceRows db).filter (matchesInvoice query))

/-- Number of joined rows matching the filter (`SELECT COUNT(*) ... WHERE ...`). -/
def countMatching (query : String) (db : Db) : Nat :=
  ((invoiceRows db).filter (matchesInvoice query)).length

/-- `SUM(CASE WHEN status = 'paid' THEN amount ELSE 0 END)` over all invoices
(`COALESCE` to 0 on the empty table is the empty sum). -/
def paidSum (db : Db) : Int :=
  (db.invoices.map fun i => if i.status == "paid" then i.amount else 0).sum

/-- `SUM(CASE WHEN status = 'pending' THEN amount ELSE 0 END)` over all
invoices. -/
def pendingSum (db : Db) : Int :=
  (db.invoices.map fun i => if i.status == "pending" then i.amount else 0).sum

/-- The all-zero dashboard aggregate. -/
def zeroCardData : CardData :=
  { numberOfInvoices := 0, numberOfCustomers := 0,
    totalPaidInvoices := 0, totalPendingInvoices := 0 }

/-- `Promise.all` over three already-settled outcomes: the combined promise
fulfils only when all three do; if any rejects, the combination rejects. -/
def promiseAll3 {α β γ : Type} (a : Option α) (b : Option β) (c : Option γ) :
    Option (α × β × γ) :=
  match a, b, c with
  | some x, some y, some z => some (x, y, z)
  | _, _, _ => none

/-- `fetchRevenue`: `SELECT * FROM revenue`; skip or failure yields `[]`,
failure also logs `DB error (revenue):`. -/
def fetchRevenue (env : Env) : List Revenue × List String :=
  if env.skipDb then ([], []) else
  match env.queryOutcome with
  | none => ([], ["DB error (revenue):"])
  | some db => (db.revenue, [])

/-- `fetchLatestInvoices`: the joined rows ordered by invoice date
descending, limited to 5, projected onto amount/name/image/email/id. -/
def fetchLatestInvoices (env : Env) : List LatestInvoiceRaw × List String :=
  if env.skipDb then ([], []) else
  match env.queryOutcome with
  | none => ([], ["DB error (latest invoices):"])
  | some db =>
    (((List.insertionSort pairDateDesc (joinedPairs db)).take 5).map fun p =>
      { amount := p.1.amount, name := p.2.name, image_url := p.2.image_url,
        email := p.2.email, id := p.1.id }, [])

/-- `fetchCardData` given the (settled) outcomes of its three sub-queries:
mirrors `Promise.all([...])` inside a single `try`/`catch` — if any
sub-query rejected, the whole aggregate falls back to zeros and logs. -/
def fetchCardDataWith (skip : Bool) (invoicesQ customersQ : Option Nat)
    (statusQ : Option (Int × Int)) : CardData × List String :=
  if skip then (zeroCardData, []) else
  match promiseAll3 invoicesQ customersQ statusQ with
  | some (i, c, s) =>
    ({ numberOfInvoices := i, numberOfCustomers := c,
       totalPaidInvoices := s.1, totalPendingInvoices := s.2 }, [])
  | none => (zeroCardData, ["DB error (cards):"])

/-- `fetchCardData`: three sub-queries (invoice count, customer count,
paid/pending sums) against the same outcome. -/
def fetchCardData (env : Env) : CardData × List String :=
  fetchCardDataWith env.skipDb
    (env.queryOutcome.map fun db => db.invoices.length)
    (env.queryOutcome.map fun db => db.customers.length)
    (env.queryOutcome.map fun db => (paidSum db, pendingSum db))

/-- `fetchFilteredInvoices(query, currentPage)`: filtered joined rows,
ordered by date descending, `LIMIT 6 OFFSET (currentPage - 1) * 6`. -/
def fetchFilteredInvoices (query : String) (currentPage : Nat) (env : Env) :
    List InvoicesTable × List String :=
  if env.skipDb then ([], []) else
  let offset := (currentPage - 1) * ITEMS_PER_PAGE
  match env.queryOutcome with
  | none => ([], ["DB error (filtered invoices):"])
  | some db =>
    (((sortedFilteredInvoices query db).drop offset).take ITEMS_PER_PAGE, [])

/-- `fetchInvoicesPages(query)`: `Math.ceil(count / 6)` over the matching
row count, as exact natural ceiling division. -/
def fetchInvoicesPages (query : String) (env : Env) : Nat × List String :=
  if env.skipDb then (0, []) else
  match env.queryOutcome with
  | none => (0, ["DB error (invoice pages):"])
  | some db => ((countMatching query db + (ITEMS_PER_PAGE - 1)) / ITEMS_PER_PAGE, [])

/-- `fetchInvoiceById(id)`: first invoice row with the given id (`data[0]`),
with `amount` divided by 100; `null` when no row matches or on failure. -/
def fetchInvoiceById (id : String) (env : Env) : Option InvoiceForm × List String :=
  if env.skipDb then (none, []) else
  match env.queryOutcome with
  | none => (none, ["DB error (invoice by id):"])
  | some db =>
    match (db.invoices.filter fun inv => inv.id == id).head? with
    | some inv =>
      (some { id := inv.id, customer_id := inv.customer_id,
              amount := (inv.amount : ℚ) / 100, status := inv.status }, [])
    | none => (none, [])

/-- `fetchCustomers`: id and name of every customer, ordered by name. -/
def fetchCustomers (env : Env) : List CustomerField × List String :=
  if env.skipDb then ([], []) else
  match env.queryOutcome with
  | none => ([], ["DB error (customers):"])
  | some db =>
    ((List.insertionSort nameAsc db.customers).map fun c =>
      ({ id := c.id, name := c.name } : CustomerField), [])

/-- The `WHERE` clause of `fetchFilteredCustomers`. -/
def matchesCustomer (query : String) (c : Customer) : Bool :=
  ilike c.name query || ilike c.email query

/-- All invoices of one customer (the `LEFT JOIN ... GROUP BY` group). -/
def customerInvoices (db : Db) (c : Customer) : List Invoice :=
  db.invoices.filter fun inv => inv.customer_id == c.id

/-- One raw SQL result row of `fetchFilteredCustomers` for customer `c`:
`COUNT(invoices.id)` counts the customer's invoices (0 when none, since the
left-join null is not counted), and the two `COALESCE`d conditional sums
arrive as present numeric values. -/
def rawCustomerRow (db : Db) (c : Customer) : CustomersTableRaw :=
  let invs := customerInvoices db c
  { id := c.id, name := c.name, email := c.email, image_url := c.image_url,
    total_invoices := invs.length,
    total_pending := some (invs.map fun i =>
      if i.status == "pending" then i.amount else 0).sum,
    total_paid := some (invs.map fun i =>
      if i.status == "paid" then i.amount else 0).sum }

/-- The `data.map(customer => ...)` step: `Number(x ?? 0)` coerces the two
possibly-absent sums to plain numbers. -/
def coerceCustomerRow (r : CustomersTableRaw) : CustomersTableType :=
  { id := r.id, name := r.name, email := r.email, image_url := r.image_url,
    total_invoices := r.total_invoices,
    total_pending := r.total_pending.getD 0,
    total_paid := r.total_paid.getD 0 }

/-- `fetchFilteredCustomers(query)`: customers matching the name/email
filter, grouped with their invoice aggregates, ordered by name ascending,
then coerced. -/
def fetchFilteredCustomers (query : String) (env : Env) :
    List CustomersTableType × List String :=
  if env.skipDb then ([], []) else
  match env.queryOutcome with
  | none => ([], ["DB error (filtered customers):"])
  | some db =>
    let data := (List.insertionSort nameAsc
      (db.customers.filter (matchesCustomer query))).map (rawCustomerRow db)
    (data.map coerceCustomerRow, [])

/-- The page count as the specification words it: `ceil(count_matching(q) / 6)`,
with exact rational division. -/
def specPages (n : Nat) : Nat := ⌈(n : ℚ) / 6⌉₊

/-- The empty needle occurs in every haystack (`ILIKE '%%'` matches all). -/
theorem containsSub_nil (h : List Char) : containsSub [] h = true := by
  cases h with
  | nil => rfl
  | cons b bs => simp [containsSub, leadMatch]

/-- Natural ceiling division by 6 agrees with the rational ceiling. -/
theorem ceil_div_six (n : Nat) : (n + 5) / 6 = ⌈(n : ℚ) / 6⌉₊ := by
  apply le_antisymm
  · have h1 : (n : ℚ) / 6 ≤ (⌈(n : ℚ) / 6⌉₊ : ℚ) := Nat.le_ceil _
    have h2 : (n : ℚ) ≤ 6 * (⌈(n : ℚ) / 6⌉₊ : ℚ) := by
      rw [div_le_iff₀ (by norm_num : (0 : ℚ) < 6)] at h1
      linarith
    have h3 : n ≤ 6 * ⌈(n : ℚ) / 6⌉₊ := by exact_mod_cast h2
    omega
  · rw [Nat.ceil_le, div_le_iff₀ (by norm_num : (0 : ℚ) < 6)]
    have h4 : n ≤ 6 * ((n + 5) / 6) := by omega
    calc (n : ℚ) ≤ ((6 * ((n + 5) / 6) : ℕ) : ℚ) := by exact_mod_cast h4
      _ = (((n + 5) / 6 : ℕ) : ℚ) * 6 := by push_cast; ring

/-- A conditional sum equals the sum over the filtered sublist. -/
theorem sum_ite_filter (l : List Invoice) (p : Invoice → Bool) :
    (l.map fun i => if p i then i.amount else 0).sum =
      ((l.filter p).map fun i => i.amount).sum := by
  induction l with
  | nil => rfl
  | cons a as ih =>
    by_cases hp : p a = true
    · simp [List.filter_cons, hp, ih]
    · simp only [Bool.not_eq_true] at hp
      simp [List.filter_cons, hp, ih]

/-- C1: on a query-execution failure (with the skip toggle off), every one
of the eight exported operations does not throw: it returns its predefined
default value (empty sequence, 0, all-zero aggregate, or `none`) and logs
exactly the diagnostic context label identifying that operation. -/
theorem queryFailure_defaults (env : Env) (hs : env.skipDb = false)
    (hq : env.queryOutcome = none) :
    fetchRevenue env = ([], ["DB error (revenue):"]) ∧
    fetchLatestInvoices env = ([], ["DB error (latest invoices):"]) ∧
    fetchCardData env = (zeroCardData, ["DB error (cards):"]) ∧
    (∀ q p, fetchFilteredInvoices q p env = ([], ["DB error (filtered invoices):"])) ∧
    (∀ q, fetchInvoicesPages q env = (0, ["DB error (invoice pages):"])) ∧
    (∀ i, fetchInvoiceById i env = (none, ["DB error (invoice by id):"])) ∧
    fetchCustomers env = ([], ["DB error (customers):"]) ∧
    (∀ q, fetchFilteredCustomers q env = ([], ["DB error (filtered customers):"])) := by
  obtain ⟨s, o⟩ := env
  cases hs
  cases hq
  exact ⟨rfl, rfl, rfl, fun q p => rfl, fun q => rfl, fun i => rfl, rfl, fun q => rfl⟩

/-- Witness for C1 at a concrete failing environment. -/
theorem queryFailure_defaults_witness :
    fetchRevenue ⟨false, none⟩ = ([], ["DB error (revenue):"]) ∧
    fetchInvoicesPages "abc" ⟨false, none⟩ = (0, ["DB error (invoice pages):"]) ∧
    fetchInvoiceById "i9" ⟨false, none⟩ = (none, ["DB error (invoice by id):"]) :=
  ⟨(queryFailure_defaults ⟨false, none⟩ rfl rfl).1,
   (queryFailure_defaults ⟨false, none⟩ rfl rfl).2.2.2.2.1 "abc",
   (queryFailure_defaults ⟨false, none⟩ rfl rfl).2.2.2.2.2.1 "i9"⟩

/-- C9: with the `SKIP_DB` toggle set, every exported operation returns its
documented default immediately, with no diagnostic, and independently of
any database outcome (no database access is attempted). -/
theorem skipDb_defaults (env : Env) (hs : env.skipDb = true) :
    fetchRevenue env = ([], []) ∧
    fetchLatestInvoices env = ([], []) ∧
    fetchCardData env = (zeroCardData, []) ∧
    (∀ q p, fetchFilteredInvoices q p env = ([], [])) ∧
    (∀ q, fetchInvoicesPages q env = (0, [])) ∧
    (∀ i, fetchInvoiceById i env = (none, [])) ∧
    fetchCustomers env = ([], []) ∧
    (∀ q, fetchFilteredCustomers q env = ([], [])) := by
  obtain ⟨s, o⟩ := env
  cases hs
  exact ⟨rfl, rfl, rfl, fun q p => rfl, fun q => rfl, fun i => rfl, rfl, fun q => rfl⟩

/-- Witness for C9 at a concrete environment where the toggle is on and a
database is nonetheless reachable. -/
theorem skipDb_defaults_witness :
    fetchRevenue ⟨true, some ⟨[], [], [⟨"Jan", 7⟩]⟩⟩ = ([], []) ∧
    fetchInvoicesPages "x" ⟨true, some ⟨[], [], []⟩⟩ = (0, []) :=
  ⟨(skipDb_defaults ⟨true, some ⟨[], [], [⟨"Jan", 7⟩]⟩⟩ rfl).1,
   (skipDb_defaults ⟨true, some ⟨[], [], []⟩⟩ rfl).2.2.2.2.1 "x"⟩

/-- C2: on success `fetchInvoicesPages q` returns the ceiling of the number
of rows matching the shared substring filter divided by the page size 6; it
returns 0 when no rows match, and 0 on query failure. -/
theorem fetchInvoicesPages_ceil (q : String) (env : Env) (db : Db)
    (hs : env.skipDb = false) (hq : env.queryOutcome = some db) :
    (fetchInvoicesPages q env).1 = specPages (countMatching q db) ∧
    (countMatching q db = 0 → (fetchInvoicesPages q env).1 = 0) ∧
    (∀ e : Env, e.skipDb = false → e.queryOutcome = none →
      (fetchInvoicesPages q e).1 = 0) := by
  obtain ⟨s, o⟩ := env
  cases hs
  cases hq
  refine ⟨?_, ?_, ?_⟩
  · show (countMatching q db + (ITEMS_PER_PAGE - 1)) / ITEMS_PER_PAGE = _
    rw [specPages, ← ceil_div_six, ITEMS_PER_PAGE]
  · intro h0
    show (countMatching q db + (ITEMS_PER_PAGE - 1)) / ITEMS_PER_PAGE = 0
    rw [h0, ITEMS_PER_PAGE]
  · intro e he hn
    obtain ⟨s2, o2⟩ := e
    cases he
    cases hn
    rfl

/-- Witness for C2 on a concrete database with seven matching rows. -/
theorem fetchInvoicesPages_ceil_witness :
    (fetchInvoicesPages "" ⟨false, some ⟨
      [⟨"i1", "c", 1, "d", "paid"⟩, ⟨"i2", "c", 2, "d", "paid"⟩,
       ⟨"i3", "c", 3, "d", "paid"⟩, ⟨"i4", "c", 4, "d", "paid"⟩,
       ⟨"i5", "c", 5, "d", "paid"⟩, ⟨"i6", "c", 6, "d", "paid"⟩,
       ⟨"i7", "c", 7, "d", "paid"⟩],
      [⟨"c", "n", "e", "u"⟩], []⟩⟩).1 =
      specPages (countMatching "" ⟨
      [⟨"i1", "c", 1, "d", "paid"⟩, ⟨"i2", "c", 2, "d", "paid"⟩,
       ⟨"i3", "c", 3, "d", "paid"⟩, ⟨"i4", "c", 4, "d", "paid"⟩,
       ⟨"i5", "c", 5, "d", "paid"⟩, ⟨"i6", "c", 6, "d", "paid"⟩,
       ⟨"i7", "c", 7, "d", "paid"⟩],
      [⟨"c", "n", "e", "u"⟩], []⟩) ∧
    (fetchInvoicesPages "zzz" ⟨false, none⟩).1 = 0 :=
  ⟨(fetchInvoicesPages_ceil "" ⟨false, _⟩ _ rfl rfl).1,
   (fetchInvoicesPages_ceil "zzz" ⟨false, some ⟨[], [], []⟩⟩ _ rfl rfl).2.2
     ⟨false, none⟩ rfl rfl⟩

/-- A joined pair comes from an invoice row and a customer row. -/
theorem mem_joinedPairs {db : Db} {p : Invoice × Customer}
    (h : p ∈ joinedPairs db) : p.1 ∈ db.invoices ∧ p.2 ∈ db.customers := by
  unfold joinedPairs at h
  rw [List.mem_flatten] at h
  obtain ⟨l, hl, hp⟩ := h
  rw [List.mem_map] at hl
  obtain ⟨inv, hinv, rfl⟩ := hl
  rw [List.mem_map] at hp
  obtain ⟨c, hc, rfl⟩ := hp
  exact ⟨hinv, (List.mem_filter.mp hc).1⟩

/-- An invoices-table row is the projection of some joined pair. -/
theorem mem_invoiceRows {db : Db} {r : InvoicesTable} (h : r ∈ invoiceRows db) :
    ∃ p ∈ joinedPairs db, r = toInvoicesTable p := by
  unfold invoiceRows at h
  rw [List.mem_map] at h
  obtain ⟨p, hp, rfl⟩ := h
  exact ⟨p, hp, rfl⟩

/-- Every row of a `fetchFilteredInvoices` success result is a matching row
of the joined table. -/
theorem mem_fetchFilteredInvoices {q : String} {page : Nat} {db : Db}
    {r : InvoicesTable}
    (h : r ∈ (fetchFilteredInvoices q page ⟨false, some db⟩).1) :
    r ∈ invoiceRows db ∧ matchesInvoice q r = true := by
  have h1 : r ∈ sortedFilteredInvoices q db :=
    List.drop_subset _ _ (List.take_subset _ _ h)
  have h2 : r ∈ (invoiceRows db).filter (matchesInvoice q) :=
    (List.perm_insertionSort dateDesc _).mem_iff.mp h1
  exact ⟨(List.mem_filter.mp h2).1, (List.mem_filter.mp h2).2⟩

/-- C3: on success, `fetchFilteredInvoices q page` (page ≥ 1) returns at
most 6 rows, each satisfying the substring filter predicate, sorted by
invoice date descending, and the result is exactly the slice at offset
`(page − 1) * 6` of length 6 of the date-descending ordering of the
matching rows. -/
theorem fetchFilteredInvoices_spec (q : String) (page : Nat) (env : Env)
    (db : Db) (hs : env.skipDb = false) (hq : env.queryOutcome = some db)
    (_hp : 1 ≤ page) :
    (fetchFilteredInvoices q page env).1.length ≤ 6 ∧
    (∀ r ∈ (fetchFilteredInvoices q page env).1, matchesInvoice q r = true) ∧
    List.Sorted dateDesc (fetchFilteredInvoices q page env).1 ∧
    (fetchFilteredInvoices q page env).1 =
      ((sortedFilteredInvoices q db).drop ((page - 1) * 6)).take 6 := by
  obtain ⟨s, o⟩ := env
  cases hs
  cases hq
  refine ⟨?_, ?_, ?_, rfl⟩
  · exact le_trans (List.length_take_le _ _) le_rfl
  · intro r hr
    exact (mem_fetchFilteredInvoices hr).2
  · have hsorted : List.Sorted dateDesc (sortedFilteredInvoices q db) :=
      List.sorted_insertionSort dateDesc _
    have hsub : (fetchFilteredInvoices q page ⟨false, some db⟩).1.Sublist
        (sortedFilteredInvoices q db) :=
      List.Sublist.trans (List.take_sublist _ _) (List.drop_sublist _ _)
    exact List.Pairwise.sublist hsub hsorted

/-- Witness for C3 on a concrete database, page 1. -/
theorem fetchFilteredInvoices_spec_witness :
    (fetchFilteredInvoices "ali" 1 ⟨false, some ⟨
      [⟨"i1", "c1", 125000, "2024-01-05", "paid"⟩,
       ⟨"i2", "c2", 300, "2024-02-01", "pending"⟩],
      [⟨"c1", "Alice", "alice@x.com", "u1"⟩, ⟨"c2", "Bob", "bob@y.com", "u2"⟩],
      []⟩⟩).1.length ≤ 6 ∧
    (fetchFilteredInvoices "ali" 1 ⟨false, some ⟨
      [⟨"i1", "c1", 125000, "2024-01-05", "paid"⟩,
       ⟨"i2", "c2", 300, "2024-02-01", "pending"⟩],
      [⟨"c1", "Alice", "alice@x.com", "u1"⟩, ⟨"c2", "Bob", "bob@y.com", "u2"⟩],
      []⟩⟩).1 =
      ((sortedFilteredInvoices "ali" ⟨
      [⟨"i1", "c1", 125000, "2024-01-05", "paid"⟩,
       ⟨"i2", "c2", 300, "2024-02-01", "pending"⟩],
      [⟨"c1", "Alice", "alice@x.com", "u1"⟩, ⟨"c2", "Bob", "bob@y.com", "u2"⟩],
      []⟩).drop 0).take 6 :=
  ⟨(fetchFilteredInvoices_spec "ali" 1 ⟨false, _⟩ _ rfl rfl le_rfl).1,
   (fetchFilteredInvoices_spec "ali" 1 ⟨false, _⟩ _ rfl rfl le_rfl).2.2.2⟩

/-- C4: the three card sub-queries are combined with join semantics and
all-or-nothing error handling: if any of the three rejects, the whole
aggregate is the all-zero default (with the `cards` diagnostic), never a
partially-populated record; the aggregate is populated only when all three
outcomes are present, and `fetchCardData` is exactly this combination of
its three sub-queries. -/
theorem fetchCardData_allOrNothing (invoicesQ customersQ : Option Nat)
    (statusQ : Option (Int × Int)) :
    (invoicesQ = none ∨ customersQ = none ∨ statusQ = none →
      fetchCardDataWith false invoicesQ customersQ statusQ =
        (zeroCardData, ["DB error (cards):"])) ∧
    (∀ i c s, invoicesQ = some i → customersQ = some c → statusQ = some s →
      fetchCardDataWith false invoicesQ customersQ statusQ =
        ({ numberOfInvoices := i, numberOfCustomers := c,
           totalPaidInvoices := s.1, totalPendingInvoices := s.2 }, [])) ∧
    (∀ env : Env, fetchCardData env = fetchCardDataWith env.skipDb
      (env.queryOutcome.map fun db => db.invoices.length)
      (env.queryOutcome.map fun db => db.customers.length)
      (env.queryOutcome.map fun db => (paidSum db, pendingSum db))) := by
  refine ⟨?_, ?_, fun env => rfl⟩
  · rintro (rfl | rfl | rfl)
    · cases customersQ <;> cases statusQ <;> rfl
    · cases invoicesQ <;> cases statusQ <;> rfl
    · cases invoicesQ <;> cases customersQ <;> rfl
  · rintro i c s rfl rfl rfl
    rfl

/-- Witness for C4: one rejected sub-query zeroes the whole aggregate. -/
theorem fetchCardData_allOrNothing_witness :
    fetchCardDataWith false none (some 2) (some (3, 4)) =
      (zeroCardData, ["DB error (cards):"]) ∧
    fetchCardDataWith false (some 5) (some 2) (some (3, 4)) =
      ({ numberOfInvoices := 5, numberOfCustomers := 2,
         totalPaidInvoices := 3, totalPendingInvoices := 4 }, []) :=
  ⟨(fetchCardData_allOrNothing none (some 2) (some (3, 4))).1 (Or.inl rfl),
   (fetchCardData_allOrNothing (some 5) (some 2) (some (3, 4))).2.1
     5 2 (3, 4) rfl rfl rfl⟩

/-- C5: on success, `fetchCardData` reports the sum of amounts of paid
invoices and the sum of amounts of pending invoices, and on an empty
database (no invoices, no customers) all four fields are 0. -/
theorem fetchCardData_sums (env : Env) (db : Db) (hs : env.skipDb = false)
    (hq : env.queryOutcome = some db) :
    (fetchCardData env).1.totalPaidInvoices =
      ((db.invoices.filter fun i => i.status == "paid").map fun i => i.amount).sum ∧
    (fetchCardData env).1.totalPendingInvoices =
      ((db.invoices.filter fun i => i.status == "pending").map fun i => i.amount).sum ∧
    (fetchCardData env).1.numberOfInvoices = db.invoices.length ∧
    (fetchCardData env).1.numberOfCustomers = db.customers.length ∧
    (db.invoices = [] → db.customers = [] → (fetchCardData env).1 = zeroCardData) := by
  obtain ⟨s, o⟩ := env
  cases hs
  cases hq
  refine ⟨?_, ?_, rfl, rfl, ?_⟩
  · show paidSum db = _
    exact sum_ite_filter db.invoices _
  · show pendingSum db = _
    exact sum_ite_filter db.invoices _
  · intro h1 h2
    obtain ⟨is, cs, rs⟩ := db
    cases h1
    cases h2
    rfl

/-- Witness for C5 on a concrete database and on the empty database. -/
theorem fetchCardData_sums_witness :
    (fetchCardData ⟨false, some ⟨
      [⟨"i1", "c1", 100, "d1", "paid"⟩, ⟨"i2", "c1", 7, "d2", "pending"⟩,
       ⟨"i3", "c1", 30, "d3", "paid"⟩],
      [⟨"c1", "n", "e", "u"⟩], []⟩⟩).1.totalPaidInvoices =
      ((([⟨"i1", "c1", 100, "d1", "paid"⟩, ⟨"i2", "c1", 7, "d2", "pending"⟩,
          ⟨"i3", "c1", 30, "d3", "paid"⟩] :
         List Invoice).filter (fun i => i.status == "paid")).map
           (fun i => i.amount)).sum ∧
    (fetchCardData ⟨false, some ⟨[], [], []⟩⟩).1 = zeroCardData :=
  ⟨(fetchCardData_sums ⟨false, _⟩ _ rfl rfl).1,
   (fetchCardData_sums ⟨false, some ⟨[], [], []⟩⟩ ⟨[], [], []⟩ rfl rfl).2.2.2.2
     rfl rfl⟩

/-- C6: on success, `fetchInvoiceById` returns the stored record with the
amount equal to the stored integer cents divided exactly by 100, and no
other row-returning operation applies this conversion: every row of
`fetchFilteredInvoices` and of `fetchLatestInvoices` carries the raw
integer cents amount of a stored invoice. -/
theorem fetchInvoiceById_centsConversion (env : Env) (db : Db) (i : String)
    (hs : env.skipDb = false) (hq : env.queryOutcome = some db) :
    (∀ inv, (db.invoices.filter fun v => v.id == i).head? = some inv →
      (fetchInvoiceById i env).1 = some
        { id := inv.id, customer_id := inv.customer_id,
          amount := (inv.amount : ℚ) / 100, status := inv.status }) ∧
    (∀ q p r, r ∈ (fetchFilteredInvoices q p env).1 →
      ∃ inv ∈ db.invoices, r.id = inv.id ∧ r.amount = inv.amount) ∧
    (∀ r ∈ (fetchLatestInvoices env).1,
      ∃ inv ∈ db.invoices, r.id = inv.id ∧ r.amount = inv.amount) := by
  obtain ⟨s, o⟩ := env
  cases hs
  cases hq
  refine ⟨?_, ?_, ?_⟩
  · intro inv hinv
    simp [fetchInvoiceById, hinv]
  · intro q p r hr
    obtain ⟨hrow, _⟩ := mem_fetchFilteredInvoices hr
    obtain ⟨pr, hpr, rfl⟩ := mem_invoiceRows hrow
    exact ⟨pr.1, (mem_joinedPairs hpr).1, rfl, rfl⟩
  · intro r hr
    obtain ⟨pr, hpr, hre⟩ := List.mem_map.mp hr
    have hpr2 : pr ∈ joinedPairs db :=
      (List.perm_insertionSort pairDateDesc _).mem_iff.mp
        (List.take_subset _ _ hpr)
    exact ⟨pr.1, (mem_joinedPairs hpr2).1, by rw [← hre], by rw [← hre]⟩

/-- Witness for C6: stored amount 125000 yields form amount 1250. -/
theorem fetchInvoiceById_centsConversion_witness :
    (fetchInvoiceById "i1" ⟨false, some ⟨
      [⟨"i1", "c1", 125000, "2024-01-05", "paid"⟩],
      [⟨"c1", "Alice", "alice@x.com", "u1"⟩], []⟩⟩).1 = some
        { id := "i1", customer_id := "c1",
          amount := (125000 : ℚ) / 100, status := "paid" } ∧
    ((125000 : ℚ) / 100 = 1250) :=
  ⟨(fetchInvoiceById_centsConversion ⟨false, _⟩ _ "i1" rfl rfl).1
      ⟨"i1", "c1", 125000, "2024-01-05", "paid"⟩ rfl,
   by norm_num⟩

/-- C7: `fetchInvoiceById` resolves to the absent-record value `none` both
when no stored invoice has the requested id and on query failure, with no
exception in either case. -/
theorem fetchInvoiceById_absent (env : Env) (i : String)
    (hs : env.skipDb = false) :
    (∀ db, env.queryOutcome = some db → (∀ inv ∈ db.invoices, ¬inv.id = i) →
      fetchInvoiceById i env = (none, [])) ∧
    (env.queryOutcome = none →
      fetchInvoiceById i env = (none, ["DB error (invoice by id):"])) := by
  obtain ⟨s, o⟩ := env
  cases hs
  constructor
  · intro db hdb hno
    cases hdb
    have hnil : (db.invoices.filter fun v => v.id == i) = [] :=
      List.filter_eq_nil_iff.mpr fun a ha => by simpa using hno a ha
    simp [fetchInvoiceById, hnil]
  · intro h
    cases h
    rfl

/-- Witness for C7: an id matching no invoice yields `none`, as does a
query failure. -/
theorem fetchInvoiceById_absent_witness :
    fetchInvoiceById "nonexistent" ⟨false, some ⟨
      [⟨"i1", "c1", 125000, "2024-01-05", "paid"⟩],
      [⟨"c1", "Alice", "alice@x.com", "u1"⟩], []⟩⟩ = (none, []) ∧
    fetchInvoiceById "nonexistent" ⟨false, none⟩ =
      (none, ["DB error (invoice by id):"]) :=
  ⟨(fetchInvoiceById_absent ⟨false, _⟩ "nonexistent" rfl).1 _ rfl
      (by decide),
   (fetchInvoiceById_absent ⟨false, none⟩ "nonexistent" rfl).2 rfl⟩

/-- C8: for a customer matching the filter with zero invoices, the returned
row has all three aggregates equal to 0 — present numeric values, obtained
by coercing the raw wire values (present `some 0`, never absent) to plain
numbers. -/
theorem fetchFilteredCustomers_zeroInvoices (env : Env) (db : Db)
    (q : String) (c : Customer) (hs : env.skipDb = false)
    (hq : env.queryOutcome = some db) (hc : c ∈ db.customers)
    (hm : matchesCustomer q c = true) (hz : customerInvoices db c = []) :
    coerceCustomerRow (rawCustomerRow db c) ∈ (fetchFilteredCustomers q env).1 ∧
    (coerceCustomerRow (rawCustomerRow db c)).total_invoices = 0 ∧
    (coerceCustomerRow (rawCustomerRow db c)).total_pending = 0 ∧
    (coerceCustomerRow (rawCustomerRow db c)).total_paid = 0 ∧
    (rawCustomerRow db c).total_pending = some 0 ∧
    (rawCustomerRow db c).total_paid = some 0 := by
  obtain ⟨s, o⟩ := env
  cases hs
  cases hq
  refine ⟨?_, ?_, ?_, ?_, ?_, ?_⟩
  · show _ ∈ ((List.insertionSort nameAsc
      (db.customers.filter (matchesCustomer q))).map
        (rawCustomerRow db)).map coerceCustomerRow
    apply List.mem_map_of_mem
    apply List.mem_map_of_mem
    rw [(List.perm_insertionSort nameAsc _).mem_iff]
    exact List.mem_filter.mpr ⟨hc, hm⟩
  · simp [coerceCustomerRow, rawCustomerRow, hz]
  · simp [coerceCustomerRow, rawCustomerRow, hz]
  · simp [coerceCustomerRow, rawCustomerRow, hz]
  · simp [rawCustomerRow, hz]
  · simp [rawCustomerRow, hz]

/-- Witness for C8: a matching customer with no invoices gets a zeroed row. -/
theorem fetchFilteredCustomers_zeroInvoices_witness :
    coerceCustomerRow (rawCustomerRow ⟨[⟨"i1", "c2", 5, "d", "paid"⟩],
      [⟨"c1", "Alice", "alice@x.com", "u1"⟩, ⟨"c2", "Bob", "bob@y.com", "u2"⟩],
      []⟩ ⟨"c1", "Alice", "alice@x.com", "u1"⟩) ∈
      (fetchFilteredCustomers "ali" ⟨false, some ⟨[⟨"i1", "c2", 5, "d", "paid"⟩],
        [⟨"c1", "Alice", "alice@x.com", "u1"⟩, ⟨"c2", "Bob", "bob@y.com", "u2"⟩],
        []⟩⟩).1 ∧
    (rawCustomerRow ⟨[⟨"i1", "c2", 5, "d", "paid"⟩],
      [⟨"c1", "Alice", "alice@x.com", "u1"⟩, ⟨"c2", "Bob", "bob@y.com", "u2"⟩],
      []⟩ ⟨"c1", "Alice", "alice@x.com", "u1"⟩).total_pending = some 0 :=
  ⟨(fetchFilteredCustomers_zeroInvoices ⟨false, _⟩ _ "ali"
      ⟨"c1", "Alice", "alice@x.com", "u1"⟩ rfl rfl (by decide) (by decide)
      (by decide)).1,
   (fetchFilteredCustomers_zeroInvoices ⟨false, _⟩ _ "ali"
      ⟨"c1", "Alice", "alice@x.com", "u1"⟩ rfl rfl (by decide) (by decide)
      (by decide)).2.2.2.2.1⟩

/-- Summing a function that is 1 on every element gives the length. -/
theorem sum_map_ones {α : Type} (l : List α) (f : α → Nat)
    (h : ∀ a ∈ l, f a = 1) : (l.map f).sum = l.length := by
  induction l with
  | nil => rfl
  | cons a as ih =>
    simp only [List.map_cons, List.sum_cons, List.length_cons,
      h a (List.mem_cons_self a as)]
    rw [ih fun b hb => h b (List.mem_cons_of_mem a hb)]
    omega

/-- Under referential integrity (each invoice has exactly one matching
customer), the joined table has one row per invoice. -/
theorem length_joinedPairs {db : Db}
    (hfk : ∀ inv ∈ db.invoices,
      (db.customers.filter fun c => c.id == inv.customer_id).length = 1) :
    (joinedPairs db).length = db.invoices.length := by
  unfold joinedPairs
  rw [List.length_flatten, List.map_map]
  exact sum_map_ones db.invoices _ fun inv hinv => by
    simpa using hfk inv hinv

/-- C10: the empty filter string matches every row (`ILIKE '%%'`), so the
filter imposes no restriction: under referential integrity the page count
is the ceiling of the total invoice count over 6, and page 1 of
`fetchFilteredInvoices ""` is the first 6 rows of the date-descending
ordering of the whole joined table. -/
theorem emptyQuery_noRestriction (env : Env) (db : Db)
    (hs : env.skipDb = false) (hq : env.queryOutcome = some db)
    (hfk : ∀ inv ∈ db.invoices,
      (db.customers.filter fun c => c.id == inv.customer_id).length = 1) :
    (∀ r : InvoicesTable, matchesInvoice "" r = true) ∧
    (invoiceRows db).filter (matchesInvoice "") = invoiceRows db ∧
    countMatching "" db = db.invoices.length ∧
    (fetchInvoicesPages "" env).1 = specPages db.invoices.length ∧
    (fetchFilteredInvoices "" 1 env).1 =
      (List.insertionSort dateDesc (invoiceRows db)).take 6 := by
  obtain ⟨s, o⟩ := env
  cases hs
  cases hq
  have hch : lowerChars "" = [] := rfl
  have hall : ∀ r : InvoicesTable, matchesInvoice "" r = true := fun r => by
    simp [matchesInvoice, ilike, hch, containsSub_nil]
  have hfilter : (invoiceRows db).filter (matchesInvoice "") = invoiceRows db :=
    List.filter_eq_self.mpr fun a _ => hall a
  have hcount : countMatching "" db = db.invoices.length := by
    rw [countMatching, hfilter, invoiceRows, List.length_map]
    exact length_joinedPairs hfk
  refine ⟨hall, hfilter, hcount, ?_, ?_⟩
  · show (countMatching "" db + (ITEMS_PER_PAGE - 1)) / ITEMS_PER_PAGE = _
    rw [hcount, ITEMS_PER_PAGE, specPages]
    exact ceil_div_six _
  · show ((sortedFilteredInvoices "" db).drop ((1 - 1) * ITEMS_PER_PAGE)).take
      ITEMS_PER_PAGE = _
    rw [sortedFilteredInvoices, hfilter]
    rfl

/-- Witness for C10 on a concrete referentially-intact database. -/
theorem emptyQuery_noRestriction_witness :
    countMatching "" ⟨
      [⟨"i1", "c1", 125000, "2024-01-05", "paid"⟩,
       ⟨"i2", "c2", 300, "2024-02-01", "pending"⟩],
      [⟨"c1", "Alice", "alice@x.com", "u1"⟩, ⟨"c2", "Bob", "bob@y.com", "u2"⟩],
      []⟩ = 2 ∧
    (fetchInvoicesPages "" ⟨false, some ⟨
      [⟨"i1", "c1", 125000, "2024-01-05", "paid"⟩,
       ⟨"i2", "c2", 300, "2024-02-01", "pending"⟩],
      [⟨"c1", "Alice", "alice@x.com", "u1"⟩, ⟨"c2", "Bob", "bob@y.com", "u2"⟩],
      []⟩⟩).1 = specPages 2 :=
  ⟨(emptyQuery_noRestriction ⟨false, _⟩ _ rfl rfl (by decide)).2.2.1,
   (emptyQuery_noRestriction ⟨false, _⟩ _ rfl rfl (by decide)).2.2.2.1⟩

end DataTs
